/-
Verification of the QuanticDaily newsletter subscription core.

Shallow embedding of the subscriber store utilities (Firestore layer),
the subscription / unsubscription services, and the HTTP route handlers.

Modelling conventions:
- Firestore's collection is a `List SubscriberDoc`; a document id is the
  position of the document in the list (queries return the first match,
  mirroring `querySnapshot.docs[0]`).
- `Timestamp.now()` becomes an explicit `now : Nat` argument.
- The SHA-256 hex digest is an external library call; it is modelled as
  an abstract parameter `sha256hex : String → String` threaded through
  every definition that uses it, so all structural properties of the
  token scheme are proved for every choice of digest function.
- `process.env.UNSUBSCRIBE_SECRET` becomes an `Option String` argument.
-/
import Mathlib

namespace Quantic

/-- A document of the `quantic-emails` collection.  Field names follow the
`Subscriber` interface of the web library; `subscribed` is the extra
compatibility flag the code writes, `unsubscribedAt` is the field the
unsubscribe paths add. -/
structure SubscriberDoc where
  email : String
  subscribedAt : Nat
  active : Bool
  subscribed : Bool
  unsubscribeToken : String
  source : Option String
  unsubscribedAt : Option Nat
  deriving DecidableEq, Repr

/-- The `{ success, message }` object returned by the service functions. -/
structure OpResult where
  success : Bool
  message : String
  deriving DecidableEq, Repr

/-- The store: the `quantic-emails` collection as a list of documents. -/
abbrev Store := List SubscriberDoc

/-- `process.env.UNSUBSCRIBE_SECRET || 'development-secret-key'` of the web
library (`generateUnsubscribeToken` in the Firestore utilities). -/
def secretFromEnv (env : Option String) : String :=
  env.getD "development-secret-key"

/-- `generateUnsubscribeToken` of the web library:
`sha256hex(email + secret)` where `secret` is the environment secret with
the development fallback. -/
def generateUnsubscribeToken (sha256hex : String → String)
    (env : Option String) (email : String) : String :=
  sha256hex (email ++ secretFromEnv env)

/-- `generateUnsubscribeToken` of the automation script
(`newsletter-automation`): `sha256hex(email + secret)` where `secret` is
`CONFIG.UNSUBSCRIBE_SECRET` (validated to be present, no fallback). -/
def automationGenerateUnsubscribeToken (sha256hex : String → String)
    (secret : String) (email : String) : String :=
  sha256hex (email ++ secret)

/-- `getSubscriberByEmail`: query the collection for the first document
whose `email` field equals the argument, returning its id (position) and
data; `none` when the query snapshot is empty. -/
def getSubscriberByEmail : Store → String → Option (Nat × SubscriberDoc)
  | [], _ => none
  | d :: ds, e =>
    if d.email = e then some (0, d)
    else (getSubscriberByEmail ds e).map (fun p => (p.1 + 1, p.2))

/-- The fields `addSubscriber` writes when reactivating an existing
inactive subscriber: `updateDoc` with `active`, `subscribed`,
`subscribedAt`, `unsubscribeToken`. -/
def reactivatedDoc (sha256hex : String → String) (env : Option String)
    (now : Nat) (email : String) (d : SubscriberDoc) : SubscriberDoc :=
  { d with
    active := true
    subscribed := true
    subscribedAt := now
    unsubscribeToken := generateUnsubscribeToken sha256hex env email }

/-- The document `addSubscriber` inserts for a brand-new email. -/
def freshDoc (sha256hex : String → String) (env : Option String)
    (now : Nat) (email source : String) : SubscriberDoc :=
  { email := email
    subscribedAt := now
    active := true
    subscribed := true
    unsubscribeToken := generateUnsubscribeToken sha256hex env email
    source := some source
    unsubscribedAt := none }

/-- `addSubscriber(email, source)`: look up the email; if found and
active, fail with the already-subscribed message; if found and inactive,
reactivate the same document in place; otherwise append a fresh document.
Returns the service result together with the updated store. -/
def addSubscriber (sha256hex : String → String) (env : Option String)
    (now : Nat) (store : Store) (email source : String) :
    OpResult × Store :=
  match getSubscriberByEmail store email with
  | some (i, d) =>
    if d.active then
      ({ success := false, message := "This email is already subscribed" },
       store)
    else
      ({ success := true,
         message := "Successfully resubscribed to QuanticDaily!" },
       store.set i (reactivatedDoc sha256hex env now email d))
  | none =>
      ({ success := true,
         message := "Successfully subscribed to QuanticDaily!" },
       store ++ [freshDoc sha256hex env now email source])

/-- `unsubscribeByEmail(email)`: look up; not-found and already-inactive
fail; otherwise set `active := false` and stamp `unsubscribedAt`. -/
def unsubscribeByEmail (now : Nat) (store : Store) (email : String) :
    OpResult × Store :=
  match getSubscriberByEmail store email with
  | none =>
      ({ success := false,
         message := "Email address not found in our subscriber list" },
       store)
  | some (i, d) =>
    if !d.active then
      ({ success := false, message := "This email is already unsubscribed" },
       store)
    else
      ({ success := true,
         message := "Successfully unsubscribed from QuanticDaily!" },
       store.set i { d with active := false, unsubscribedAt := some now })

/-- `unsubscribeByToken(email, token)`: recompute the expected token and
compare before any lookup; on mismatch fail with the invalid-token
message; then look up, treating a missing record as not-found failure and
an already-inactive record as idempotent success. -/
def unsubscribeByToken (sha256hex : String → String) (env : Option String)
    (now : Nat) (store : Store) (email token : String) :
    OpResult × Store :=
  let expectedToken := generateUnsubscribeToken sha256hex env email
  if token ≠ expectedToken then
    ({ success := false, message := "Invalid unsubscribe token" }, store)
  else
    match getSubscriberByEmail store email with
    | none =>
        ({ success := false,
           message := "Email address not found in our subscriber list" },
         store)
    | some (i, d) =>
      if !d.active then
        ({ success := true, message := "This email is already unsubscribed" },
         store)
      else
        ({ success := true,
           message := "Successfully unsubscribed from QuanticDaily!" },
         store.set i { d with active := false, unsubscribedAt := some now })

/-- `getActiveSubscribers`: query for documents with `active == true`. -/
def getActiveSubscribers (store : Store) : List SubscriberDoc :=
  store.filter (·.active)

/-! ### Fallible variants

The services wrap every store access in `try/catch`.  The read path
(`getSubscriberByEmail`) has its own catch that degrades to `null`, so a
service-level catch fires exactly when a write (`addDoc`/`updateDoc`) or
the listing query throws.  `writeFails` / `listFails` say whether that
underlying call throws; `false` recovers the functions above. -/

/-- `addSubscriber` with a possibly-throwing write: the catch block
returns the generic failure message and the store is untouched. -/
def addSubscriberF (sha256hex : String → String) (env : Option String)
    (now : Nat) (store : Store) (email source : String)
    (writeFails : Bool) : OpResult × Store :=
  match getSubscriberByEmail store email with
  | some (i, d) =>
    if d.active then
      ({ success := false, message := "This email is already subscribed" },
       store)
    else if writeFails then
      ({ success := false,
         message := "Failed to subscribe. Please try again." }, store)
    else
      ({ success := true,
         message := "Successfully resubscribed to QuanticDaily!" },
       store.set i (reactivatedDoc sha256hex env now email d))
  | none =>
    if writeFails then
      ({ success := false,
         message := "Failed to subscribe. Please try again." }, store)
    else
      ({ success := true,
         message := "Successfully subscribed to QuanticDaily!" },
       store ++ [freshDoc sha256hex env now email source])

/-- `unsubscribeByEmail` with a possibly-throwing write. -/
def unsubscribeByEmailF (now : Nat) (store : Store) (email : String)
    (writeFails : Bool) : OpResult × Store :=
  match getSubscriberByEmail store email with
  | none =>
      ({ success := false,
         message := "Email address not found in our subscriber list" },
       store)
  | some (i, d) =>
    if !d.active then
      ({ success := false, message := "This email is already unsubscribed" },
       store)
    else if writeFails then
      ({ success := false,
         message := "Failed to unsubscribe. Please try again." }, store)
    else
      ({ success := true,
         message := "Successfully unsubscribed from QuanticDaily!" },
       store.set i { d with active := false, unsubscribedAt := some now })

/-- `unsubscribeByToken` with a possibly-throwing write. -/
def unsubscribeByTokenF (sha256hex : String → String) (env : Option String)
    (now : Nat) (store : Store) (email token : String)
    (writeFails : Bool) : OpResult × Store :=
  let expectedToken := generateUnsubscribeToken sha256hex env email
  if token ≠ expectedToken then
    ({ success := false, message := "Invalid unsubscribe token" }, store)
  else
    match getSubscriberByEmail store email with
    | none =>
        ({ success := false,
           message := "Email address not found in our subscriber list" },
         store)
    | some (i, d) =>
      if !d.active then
        ({ success := true, message := "This email is already unsubscribed" },
         store)
      else if writeFails then
        ({ success := false,
           message := "Failed to unsubscribe. Please try again." }, store)
      else
        ({ success := true,
           message := "Successfully unsubscribed from QuanticDaily!" },
         store.set i { d with active := false, unsubscribedAt := some now })

/-- `getActiveSubscribers` with a possibly-throwing query: its catch
block returns the empty list. -/
def getActiveSubscribersF (store : Store) (listFails : Bool) :
    List SubscriberDoc :=
  if listFails then [] else getActiveSubscribers store

/-! ### JavaScript string helpers used by the route handlers -/

/-- JavaScript truthiness of an optional string parameter: `null`
(absent) and the empty string are falsy. -/
def strFalsy : Option String → Bool
  | none => true
  | some s => s == ""

/-- Occurrence of `pat` as a contiguous sublist (helper for
`String.prototype.includes`). -/
def listContainsSub (pat : List Char) : List Char → Bool
  | [] => pat.isEmpty
  | c :: rest => pat.isPrefixOf (c :: rest) || listContainsSub pat rest

/-- `s.includes(pat)` of JavaScript. -/
def strIncludes (s pat : String) : Bool :=
  listContainsSub pat.data s.data

/-- One character of the class of the validation regex, i.e. a
match for the atom in brackets: not whitespace and not the at sign (the
whitespace class is approximated by the ASCII whitespace predicate). -/
def emailClassChar (c : Char) : Bool :=
  !(c == '@') && !c.isWhitespace

/-- A nonempty run of class characters (the plus-quantified bracket of
the pattern). -/
def classSeg (cs : List Char) : Bool :=
  !cs.isEmpty && cs.all emailClassChar

/-- The email validation test used by the routes (local part, one at
sign, then a domain that contains a dot with at least one character on
each side; the class admits dots, so the dot may be any interior dot of
the domain). -/
def emailRegexTest (s : String) : Bool :=
  match s.data.splitOn '@' with
  | [loc, dom] =>
      classSeg loc && classSeg dom && ((dom.drop 1).dropLast.contains '.')
  | _ => false

/-! ### HTTP route handlers -/

/-- A JSON response body: the three shapes the routes return. -/
inductive RespBody where
  | message (m : String)
  | error (e : String)
  | listing (total : Nat) (subs : List (String × Nat))
  deriving DecidableEq, Repr

/-- `GET /api/unsubscribe?token=…&email=…`: missing (or empty) parameters
give 400; otherwise the token service runs and its failure message is
mapped to a status by substring tests. -/
def unsubscribeGET (sha256hex : String → String) (env : Option String)
    (now : Nat) (store : Store) (tokenParam emailParam : Option String)
    (writeFails : Bool) : Nat × RespBody × Store :=
  if strFalsy tokenParam || strFalsy emailParam then
    (400, RespBody.error "Missing token or email parameter", store)
  else
    match unsubscribeByTokenF sha256hex env now store
      (emailParam.getD "") (tokenParam.getD "") writeFails with
    | (res, st) =>
      if res.success then
        (200, RespBody.message res.message, st)
      else
        ((if strIncludes res.message "Invalid token" then 403
          else if strIncludes res.message "not found" then 404
          else 400),
         RespBody.error res.message, st)

/-- `POST /api/unsubscribe` with body `{email}`. -/
def unsubscribePOST (now : Nat) (store : Store)
    (emailField : Option String) (writeFails : Bool) :
    Nat × RespBody × Store :=
  if strFalsy emailField || !emailRegexTest (emailField.getD "") then
    (400, RespBody.error "Please provide a valid email address", store)
  else
    match unsubscribeByEmailF now store (emailField.getD "") writeFails with
    | (res, st) =>
      if res.success then
        (200, RespBody.message res.message, st)
      else
        ((if strIncludes res.message "not found" then 404
          else if strIncludes res.message "already unsubscribed" then 409
          else 400),
         RespBody.error res.message, st)

/-- `POST /api/subscribe` with body `{email}`. -/
def subscribePOST (sha256hex : String → String) (env : Option String)
    (now : Nat) (store : Store) (emailField : Option String)
    (writeFails : Bool) : Nat × RespBody × Store :=
  if strFalsy emailField || !emailRegexTest (emailField.getD "") then
    (400, RespBody.error "Please provide a valid email address", store)
  else
    match addSubscriberF sha256hex env now store
      (emailField.getD "") "website" writeFails with
    | (res, st) =>
      if res.success then
        (200, RespBody.message res.message, st)
      else
        ((if strIncludes res.message "already subscribed" then 409 else 400),
         RespBody.error res.message, st)

/-- `GET /api/subscribe`: the active-subscriber listing; the service's
own catch degrades a failing query to the empty list, so the route
always answers 200 with a listing body. -/
def subscribeGET (store : Store) (listFails : Bool) : Nat × RespBody :=
  let subs := getActiveSubscribersF store listFails
  (200,
   RespBody.listing subs.length (subs.map (fun d => (d.email, d.subscribedAt))))

/-! ### Concrete data used to instantiate theorems with hypotheses -/

/-- A stand-in digest function for concrete evaluations (the services
are proved correct for every digest function). -/
def demoHash (s : String) : String :=
  "#" ++ s

/-- A concrete environment secret. -/
def demoEnv : Option String :=
  some "sec"

/-- A store holding one active subscriber `a@x.com`. -/
def demoStore : Store :=
  [freshDoc demoHash demoEnv 1 "a@x.com" "website"]

/-- A store holding one inactive subscriber `a@x.com` that unsubscribed
at time 2. -/
def demoStoreInactive : Store :=
  [{ email := "a@x.com"
     subscribedAt := 1
     active := false
     subscribed := true
     unsubscribeToken := demoHash "a@x.comsec"
     source := some "website"
     unsubscribedAt := some 2 }]

/-! ### Shared lemmas about the store query -/

theorem getSubscriberByEmail_mem {store : Store} {email : String}
    {i : Nat} {d : SubscriberDoc}
    (h : getSubscriberByEmail store email = some (i, d)) : d ∈ store := by
  induction store generalizing i with
  | nil => simp [getSubscriberByEmail] at h
  | cons a as ih =>
    rw [getSubscriberByEmail] at h
    by_cases ha : a.email = email
    · rw [if_pos ha] at h
      simp only [Option.some.injEq, Prod.mk.injEq] at h
      rw [← h.2]
      exact List.mem_cons_self _ _
    · rw [if_neg ha] at h
      cases hh : getSubscriberByEmail as email with
      | none => rw [hh] at h; simp at h
      | some p =>
        obtain ⟨j, q⟩ := p
        rw [hh] at h
        simp only [Option.map_some', Option.some.injEq, Prod.mk.injEq] at h
        rw [h.2] at hh
        exact List.mem_cons_of_mem a (ih hh)

theorem getSubscriberByEmail_get? {store : Store} {email : String}
    {i : Nat} {d : SubscriberDoc}
    (h : getSubscriberByEmail store email = some (i, d)) :
    store.get? i = some d := by
  induction store generalizing i with
  | nil => simp [getSubscriberByEmail] at h
  | cons a as ih =>
    rw [getSubscriberByEmail] at h
    by_cases ha : a.email = email
    · rw [if_pos ha] at h
      simp only [Option.some.injEq, Prod.mk.injEq] at h
      rw [← h.1, ← h.2]
      rfl
    · rw [if_neg ha] at h
      cases hh : getSubscriberByEmail as email with
      | none => rw [hh] at h; simp at h
      | some p =>
        obtain ⟨j, q⟩ := p
        rw [hh] at h
        simp only [Option.map_some', Option.some.injEq, Prod.mk.injEq] at h
        rw [h.2] at hh
        rw [← h.1]
        exact ih hh

/-! ### C7 : the token generator -/

/-- C7: the unsubscribe token is the fixed function
`digest (email ++ secret)`; the web-library generator and the automation
script's generator compute the same function of the email and the
secret, for every digest function. -/
theorem C7_token_generator_fixed_function :
    ∀ (sha256hex : String → String) (env : Option String) (email : String),
      generateUnsubscribeToken sha256hex env email
        = sha256hex (email ++ secretFromEnv env)
      ∧ automationGenerateUnsubscribeToken sha256hex (secretFromEnv env) email
        = generateUnsubscribeToken sha256hex env email :=
  fun _ _ _ => ⟨rfl, rfl⟩

/-! ### C1 : the token gate of unsubscribeByToken -/

/-- C1 as stated is false: with the correct token for an email that has
no subscriber record, `unsubscribeByToken` does not succeed (it fails
with the not-found message), so success is not equivalent to supplying
the correct token. -/
theorem C1_counterexample :
    unsubscribeByToken demoHash demoEnv 0 [] "a@x.com"
        (generateUnsubscribeToken demoHash demoEnv "a@x.com")
      = ({ success := false,
           message := "Email address not found in our subscriber list" },
         []) := by
  rfl

/-- C1 (amended): `unsubscribeByToken` succeeds iff the supplied token
equals the recomputed token AND a record for the email exists; for every
other token the result is the invalid-token failure with the store
unchanged, and is identical for any two stores (no store lookup can
influence the outcome before the token comparison). -/
theorem C1_token_gate (sha256hex : String → String) (env : Option String)
    (now : Nat) (store : Store) (email t : String) :
    ((unsubscribeByToken sha256hex env now store email t).1.success = true
      ↔ (t = generateUnsubscribeToken sha256hex env email
          ∧ (getSubscriberByEmail store email).isSome = true))
    ∧ (t ≠ generateUnsubscribeToken sha256hex env email →
        unsubscribeByToken sha256hex env now store email t
          = ({ success := false, message := "Invalid unsubscribe token" },
             store))
    ∧ (t ≠ generateUnsubscribeToken sha256hex env email →
        ∀ store' : Store,
          (unsubscribeByToken sha256hex env now store email t).1
            = (unsubscribeByToken sha256hex env now store' email t).1) := by
  refine ⟨?_, ?_, ?_⟩
  · rw [unsubscribeByToken]
    by_cases ht : t = generateUnsubscribeToken sha256hex env email
    · rw [if_neg (by simpa using ht)]
      cases hh : getSubscriberByEmail store email with
      | none => simp [ht, hh]
      | some p =>
        cases p with
        | mk i d =>
          cases hd : d.active <;> simp [ht, hh, hd]
    · rw [if_pos (by simpa using ht)]
      simp [ht]
  · intro ht
    rw [unsubscribeByToken, if_pos (by simpa using ht)]
  · intro ht store'
    rw [unsubscribeByToken, unsubscribeByToken,
      if_pos (by simpa using ht), if_pos (by simpa using ht)]

/-- Instance of `C1_token_gate` at a concrete input: a wrong token on
the singleton demo store yields the invalid-token failure and leaves the
store unchanged. -/
theorem C1_token_gate_witness :
    unsubscribeByToken demoHash demoEnv 0 demoStore "a@x.com" "bad"
      = ({ success := false, message := "Invalid unsubscribe token" },
         demoStore) :=
  (C1_token_gate demoHash demoEnv 0 demoStore "a@x.com" "bad").2.1 (by decide)

/-! ### C2 : the three-way case split of addSubscriber -/

/-- C2: `addSubscriber` splits on the store: no record inserts a fresh
active document (fresh `subscribedAt`, newly computed token) at the end
of the collection; an active record fails with the already-subscribed
message and leaves the store unchanged; an inactive record is updated in
place (same document id, no new record) to the reactivated document. -/
theorem C2_addSubscriber_cases (sha256hex : String → String)
    (env : Option String) (now : Nat) (store : Store)
    (email source : String) :
    (getSubscriberByEmail store email = none →
      addSubscriber sha256hex env now store email source
        = ({ success := true,
             message := "Successfully subscribed to QuanticDaily!" },
           store ++ [freshDoc sha256hex env now email source])
      ∧ (freshDoc sha256hex env now email source).active = true
      ∧ (freshDoc sha256hex env now email source).subscribedAt = now
      ∧ (freshDoc sha256hex env now email source).unsubscribeToken
          = generateUnsubscribeToken sha256hex env email)
    ∧ (∀ i d, getSubscriberByEmail store email = some (i, d) →
        d.active = true →
        addSubscriber sha256hex env now store email source
          = ({ success := false,
               message := "This email is already subscribed" }, store))
    ∧ (∀ i d, getSubscriberByEmail store email = some (i, d) →
        d.active = false →
        addSubscriber sha256hex env now store email source
          = ({ success := true,
               message := "Successfully resubscribed to QuanticDaily!" },
             store.set i (reactivatedDoc sha256hex env now email d))
        ∧ store.get? i = some d
        ∧ (store.set i (reactivatedDoc sha256hex env now email d)).length
            = store.length
        ∧ (reactivatedDoc sha256hex env now email d).active = true
        ∧ (reactivatedDoc sha256hex env now email d).subscribedAt = now
        ∧ (reactivatedDoc sha256hex env now email d).unsubscribeToken
            = generateUnsubscribeToken sha256hex env email) := by
  refine ⟨?_, ?_, ?_⟩
  · intro h
    refine ⟨?_, rfl, rfl, rfl⟩
    rw [addSubscriber, h]
  · intro i d h hd
    rw [addSubscriber, h]
    simp [hd]
  · intro i d h hd
    refine ⟨?_, getSubscriberByEmail_get? h, by simp, rfl, rfl, rfl⟩
    rw [addSubscriber, h]
    simp [hd]

/-- Instance of `C2_addSubscriber_cases` at concrete inputs: subscribing
a new email appends the fresh document, and resubscribing the inactive
demo subscriber reactivates it in place. -/
theorem C2_addSubscriber_cases_witness :
    addSubscriber demoHash demoEnv 3 [] "a@x.com" "website"
      = ({ success := true,
           message := "Successfully subscribed to QuanticDaily!" },
         [freshDoc demoHash demoEnv 3 "a@x.com" "website"])
    ∧ addSubscriber demoHash demoEnv 7 demoStoreInactive "a@x.com" "website"
      = ({ success := true,
           message := "Successfully resubscribed to QuanticDaily!" },
         [reactivatedDoc demoHash demoEnv 7 "a@x.com"
            (demoStoreInactive.get ⟨0, by decide⟩)]) :=
  ⟨((C2_addSubscriber_cases demoHash demoEnv 3 [] "a@x.com" "website").1
      rfl).1,
   ((C2_addSubscriber_cases demoHash demoEnv 7 demoStoreInactive "a@x.com"
      "website").2.2 0 (demoStoreInactive.get ⟨0, by decide⟩) (by decide)
      (by decide)).1⟩


/-! ### C3 : the case split of unsubscribeByEmail -/

theorem C3_unsubscribeByEmail_cases (now : Nat) (store : Store)
    (email : String) :
    (getSubscriberByEmail store email = none →
      unsubscribeByEmail now store email
        = ({ success := false,
             message := "Email address not found in our subscriber list" },
           store))
    ∧ (∀ i d, getSubscriberByEmail store email = some (i, d) →
        d.active = false →
        unsubscribeByEmail now store email
          = ({ success := false,
               message := "This email is already unsubscribed" }, store))
    ∧ (∀ i d, getSubscriberByEmail store email = some (i, d) →
        d.active = true →
        unsubscribeByEmail now store email
          = ({ success := true,
               message := "Successfully unsubscribed from QuanticDaily!" },
             store.set i
               { d with active := false, unsubscribedAt := some now })) := by
  refine ⟨?_, ?_, ?_⟩
  · intro h
    rw [unsubscribeByEmail, h]
  · intro i d h hd
    rw [unsubscribeByEmail, h]
    simp [hd]
  · intro i d h hd
    rw [unsubscribeByEmail, h]
    simp [hd]

theorem C3_unsubscribeByEmail_cases_witness :
    unsubscribeByEmail 4 [] "a@x.com"
      = ({ success := false,
           message := "Email address not found in our subscriber list" }, [])
    ∧ unsubscribeByEmail 4 demoStoreInactive "a@x.com"
      = ({ success := false,
           message := "This email is already unsubscribed" },
         demoStoreInactive) :=
  ⟨(C3_unsubscribeByEmail_cases 4 [] "a@x.com").1 rfl,
   (C3_unsubscribeByEmail_cases 4 demoStoreInactive "a@x.com").2.1 0
     (demoStoreInactive.get ⟨0, by decide⟩) (by decide) (by decide)⟩

/-! ### C4 : the two unsubscribe paths disagree on an inactive record -/

theorem C4_paths_disagree_on_inactive (sha256hex : String → String)
    (env : Option String) (now now2 : Nat) (store : Store) (email : String)
    (i : Nat) (d : SubscriberDoc)
    (h : getSubscriberByEmail store email = some (i, d))
    (hd : d.active = false) :
    unsubscribeByToken sha256hex env now store email
        (generateUnsubscribeToken sha256hex env email)
      = ({ success := true,
           message := "This email is already unsubscribed" }, store)
    ∧ unsubscribeByEmail now2 store email
      = ({ success := false,
           message := "This email is already unsubscribed" }, store) := by
  constructor
  · rw [unsubscribeByToken, if_neg (by simp), h]
    simp [hd]
  · rw [unsubscribeByEmail, h]
    simp [hd]

theorem C4_paths_disagree_on_inactive_witness :
    unsubscribeByToken demoHash demoEnv 9 demoStoreInactive "a@x.com"
        (generateUnsubscribeToken demoHash demoEnv "a@x.com")
      = ({ success := true,
           message := "This email is already unsubscribed" },
         demoStoreInactive)
    ∧ unsubscribeByEmail 9 demoStoreInactive "a@x.com"
      = ({ success := false,
           message := "This email is already unsubscribed" },
         demoStoreInactive) :=
  C4_paths_disagree_on_inactive demoHash demoEnv 9 9 demoStoreInactive
    "a@x.com" 0 (demoStoreInactive.get ⟨0, by decide⟩) (by decide) (by decide)

/-! ### C5 : status mapping of the token route -/

/-- C5 names 403 for an invalid token, and indeed the route maps a
message containing the substring "Invalid token" to 403; but the service
produces the message "Invalid unsubscribe token", which does not contain
that substring, so an invalid token is answered with 400 and the 403
branch is unreachable. -/
theorem C5_invalid_token_yields_400 :
    unsubscribeGET demoHash demoEnv 0 demoStore (some "wrong")
        (some "a@x.com") false
      = (400, RespBody.error "Invalid unsubscribe token", demoStore)
    ∧ strIncludes "Invalid unsubscribe token" "Invalid token" = false
    ∧ (400 : Nat) ≠ 403 := by
  refine ⟨by decide, by decide, by decide⟩

/-! ### C6 : verification never reads the stored token -/

/-- Two documents that agree on every field except (possibly) the stored
`unsubscribeToken`. -/
def SameButToken (d d' : SubscriberDoc) : Prop :=
  d.email = d'.email ∧ d.subscribedAt = d'.subscribedAt
  ∧ d.active = d'.active ∧ d.subscribed = d'.subscribed
  ∧ d.source = d'.source ∧ d.unsubscribedAt = d'.unsubscribedAt

theorem getSubscriberByEmail_sameButToken {s s' : Store} {email : String}
    (h : List.Forall₂ SameButToken s s') :
    (getSubscriberByEmail s email = none
      ∧ getSubscriberByEmail s' email = none)
    ∨ ∃ i d d', getSubscriberByEmail s email = some (i, d)
        ∧ getSubscriberByEmail s' email = some (i, d')
        ∧ SameButToken d d' := by
  induction h with
  | nil => exact Or.inl ⟨rfl, rfl⟩
  | @cons a b as bs hab htail ih =>
    rw [getSubscriberByEmail, getSubscriberByEmail]
    by_cases he : a.email = email
    · rw [if_pos he, if_pos (hab.1 ▸ he)]
      exact Or.inr ⟨0, a, b, rfl, rfl, hab⟩
    · rw [if_neg he, if_neg (fun hb => he (hab.1 ▸ hb))]
      cases ih with
      | inl hn =>
        rw [hn.1, hn.2]
        exact Or.inl ⟨rfl, rfl⟩
      | inr hs =>
        obtain ⟨i, d, d', h1, h2, hdd⟩ := hs
        rw [h1, h2]
        exact Or.inr ⟨i + 1, d, d', rfl, rfl, hdd⟩

/-- C6: the outcome of token verification depends only on the supplied
email, the supplied token and the secret: two stores that agree except
on stored `unsubscribeToken` values give the same result. -/
theorem C6_verification_ignores_stored_token (sha256hex : String → String)
    (env : Option String) (now : Nat) (store store' : Store)
    (email t : String) (h : List.Forall₂ SameButToken store store') :
    (unsubscribeByToken sha256hex env now store email t).1
      = (unsubscribeByToken sha256hex env now store' email t).1 := by
  rw [unsubscribeByToken, unsubscribeByToken]
  by_cases ht : t = generateUnsubscribeToken sha256hex env email
  · rw [if_neg (by simpa using ht), if_neg (by simpa using ht)]
    cases @getSubscriberByEmail_sameButToken store store' email h with
    | inl hn => rw [hn.1, hn.2]
    | inr hs =>
      obtain ⟨i, d, d', h1, h2, hdd⟩ := hs
      rw [h1, h2]
      cases hda : d.active with
      | false =>
        have hda' : d'.active = false := hdd.2.2.1 ▸ hda
        simp [hda, hda']
      | true =>
        have hda' : d'.active = true := hdd.2.2.1 ▸ hda
        simp [hda, hda']
  · rw [if_pos (by simpa using ht), if_pos (by simpa using ht)]

/-- A copy of the demo store whose only record carries a different
stored token. -/
def demoStoreAltToken : Store :=
  [{ freshDoc demoHash demoEnv 1 "a@x.com" "website" with
      unsubscribeToken := "something-else" }]

theorem C6_verification_ignores_stored_token_witness :
    (unsubscribeByToken demoHash demoEnv 3 demoStore "a@x.com" "t").1
      = (unsubscribeByToken demoHash demoEnv 3 demoStoreAltToken
          "a@x.com" "t").1 :=
  C6_verification_ignores_stored_token demoHash demoEnv 3 demoStore
    demoStoreAltToken "a@x.com" "t"
    (List.Forall₂.cons ⟨rfl, rfl, rfl, rfl, rfl, rfl⟩ List.Forall₂.nil)


/-! ### C8 : the lifecycle invariant -/

/-- One service call, as a transition on the store. -/
inductive Op where
  | add (email source : String)
  | unsubEmail (email : String)
  | unsubToken (email token : String)

/-- The store after running one service call at time `now`. -/
def applyOp (sha256hex : String → String) (env : Option String)
    (now : Nat) (store : Store) : Op → Store
  | Op.add e s => (addSubscriber sha256hex env now store e s).2
  | Op.unsubEmail e => (unsubscribeByEmail now store e).2
  | Op.unsubToken e t => (unsubscribeByToken sha256hex env now store e t).2

/-- The record-level half of the invariant: an inactive record carries an
`unsubscribedAt` stamp at or after its `subscribedAt`. -/
def recInv (d : SubscriberDoc) : Prop :=
  d.active = false → ∃ u, d.unsubscribedAt = some u ∧ d.subscribedAt ≤ u

/-- The three step facts, packaged: the invariant, the clock bound, and
freshness of `subscribedAt` for records that this step made active. -/
def StepInv (store store' : Store) (now : Nat) : Prop :=
  (∀ d ∈ store', recInv d)
  ∧ (∀ d ∈ store', d.subscribedAt ≤ now)
  ∧ (∀ d ∈ store', d.active = true → d ∈ store ∨ d.subscribedAt = now)

theorem stepInv_id {store : Store} {now : Nat}
    (hInv : ∀ d ∈ store, recInv d)
    (hLe : ∀ d ∈ store, d.subscribedAt ≤ now) :
    StepInv store store now :=
  ⟨hInv, hLe, fun _ hd _ => Or.inl hd⟩

theorem stepInv_set {store : Store} {now : Nat} {i : Nat}
    {d2 : SubscriberDoc}
    (hInv : ∀ d ∈ store, recInv d)
    (hLe : ∀ d ∈ store, d.subscribedAt ≤ now)
    (h2inv : recInv d2) (h2le : d2.subscribedAt ≤ now)
    (h2fresh : d2.active = true → d2.subscribedAt = now) :
    StepInv store (store.set i d2) now := by
  refine ⟨?_, ?_, ?_⟩
  · intro d hd
    rcases List.mem_or_eq_of_mem_set hd with hmem | heq
    · exact hInv d hmem
    · exact heq ▸ h2inv
  · intro d hd
    rcases List.mem_or_eq_of_mem_set hd with hmem | heq
    · exact hLe d hmem
    · exact heq ▸ h2le
  · intro d hd hact
    rcases List.mem_or_eq_of_mem_set hd with hmem | heq
    · exact Or.inl hmem
    · subst heq
      exact Or.inr (h2fresh hact)

theorem stepInv_append {store : Store} {now : Nat} {nd : SubscriberDoc}
    (hInv : ∀ d ∈ store, recInv d)
    (hLe : ∀ d ∈ store, d.subscribedAt ≤ now)
    (hndInv : recInv nd) (hndLe : nd.subscribedAt ≤ now)
    (hndFresh : nd.active = true → nd.subscribedAt = now) :
    StepInv store (store ++ [nd]) now := by
  refine ⟨?_, ?_, ?_⟩
  · intro d hd
    rcases List.mem_append.1 hd with hmem | hone
    · exact hInv d hmem
    · rw [List.mem_singleton.1 hone]
      exact hndInv
  · intro d hd
    rcases List.mem_append.1 hd with hmem | hone
    · exact hLe d hmem
    · rw [List.mem_singleton.1 hone]
      exact hndLe
  · intro d hd hact
    rcases List.mem_append.1 hd with hmem | hone
    · exact Or.inl hmem
    · rw [List.mem_singleton.1 hone] at hact ⊢
      exact Or.inr (hndFresh hact)

theorem applyOp_stepInv (sha256hex : String → String) (env : Option String)
    (now : Nat) (store : Store) (op : Op)
    (hInv : ∀ d ∈ store, recInv d)
    (hLe : ∀ d ∈ store, d.subscribedAt ≤ now) :
    StepInv store (applyOp sha256hex env now store op) now := by
  cases op with
  | add e s =>
    show StepInv store (addSubscriber sha256hex env now store e s).2 now
    rw [addSubscriber]
    cases hq : getSubscriberByEmail store e with
    | none =>
      exact stepInv_append hInv hLe (fun h => by cases h) le_rfl
        (fun _ => rfl)
    | some p =>
      obtain ⟨i, d⟩ := p
      cases hd : d.active with
      | true => simpa [hd] using stepInv_id hInv hLe
      | false =>
        simp only [hd, Bool.false_eq_true, if_false]
        exact stepInv_set hInv hLe (fun h => by cases h) le_rfl
          (fun _ => rfl)
  | unsubEmail e =>
    show StepInv store (unsubscribeByEmail now store e).2 now
    rw [unsubscribeByEmail]
    cases hq : getSubscriberByEmail store e with
    | none => exact stepInv_id hInv hLe
    | some p =>
      obtain ⟨i, d⟩ := p
      cases hd : d.active with
      | false => simpa [hd] using stepInv_id hInv hLe
      | true =>
        simp only [hd, Bool.not_true, Bool.false_eq_true, if_false]
        refine stepInv_set hInv hLe ?_ ?_ (fun h => by cases h)
        · exact fun _ => ⟨now, rfl, hLe d (getSubscriberByEmail_mem hq)⟩
        · exact hLe d (getSubscriberByEmail_mem hq)
  | unsubToken e t =>
    show StepInv store (unsubscribeByToken sha256hex env now store e t).2 now
    rw [unsubscribeByToken]
    by_cases ht : t = generateUnsubscribeToken sha256hex env e
    · rw [if_neg (by simpa using ht)]
      cases hq : getSubscriberByEmail store e with
      | none => exact stepInv_id hInv hLe
      | some p =>
        obtain ⟨i, d⟩ := p
        cases hd : d.active with
        | false => simpa [hd] using stepInv_id hInv hLe
        | true =>
          simp only [hd, Bool.not_true, Bool.false_eq_true, if_false]
          refine stepInv_set hInv hLe ?_ ?_ (fun h => by cases h)
          · exact fun _ => ⟨now, rfl, hLe d (getSubscriberByEmail_mem hq)⟩
          · exact hLe d (getSubscriberByEmail_mem hq)
    · rw [if_pos (by simpa using ht)]
      exact stepInv_id hInv hLe

/-- A timed trace of service calls starting from a store. -/
def runOps (sha256hex : String → String) (env : Option String) :
    List (Nat × Op) → Store → Store
  | [], store => store
  | (t, op) :: rest, store =>
    runOps sha256hex env rest (applyOp sha256hex env t store op)

/-- The clock never moves backwards along the trace, starting at `t0`. -/
def ClockMono : Nat → List (Nat × Op) → Prop
  | _, [] => True
  | t0, (t, _) :: rest => t0 ≤ t ∧ ClockMono t rest

theorem runOps_inv (sha256hex : String → String) (env : Option String)
    (trace : List (Nat × Op)) :
    ∀ (t0 : Nat) (store : Store),
      (∀ d ∈ store, recInv d) → (∀ d ∈ store, d.subscribedAt ≤ t0) →
      ClockMono t0 trace →
      ∀ d ∈ runOps sha256hex env trace store, recInv d := by
  induction trace with
  | nil => exact fun _ _ hInv _ _ => hInv
  | cons step rest ih =>
    obtain ⟨t, op⟩ := step
    intro t0 store hInv hLe hmono
    have hstep := applyOp_stepInv sha256hex env t store op hInv
      (fun d hd => le_trans (hLe d hd) hmono.1)
    exact ih t (applyOp sha256hex env t store op) hstep.1 hstep.2.1
      hmono.2

/-- C8: under any one of the three operations, run at a time `now` no
earlier than every `subscribedAt` in the store, the invariant is
preserved: inactive records carry an `unsubscribedAt` at or after their
`subscribedAt`, the clock bound is maintained, and any record that is
active after the step either was already present unchanged or had its
`subscribedAt` freshly set to `now` at this activation; consequently
every record reachable from the empty store along a monotone-clock trace
satisfies the invariant. -/
theorem C8_lifecycle_invariant (sha256hex : String → String)
    (env : Option String) (now : Nat) (store : Store) (op : Op)
    (hInv : ∀ d ∈ store, recInv d)
    (hLe : ∀ d ∈ store, d.subscribedAt ≤ now) :
    ((∀ d ∈ applyOp sha256hex env now store op, recInv d)
      ∧ (∀ d ∈ applyOp sha256hex env now store op, d.subscribedAt ≤ now)
      ∧ (∀ d ∈ applyOp sha256hex env now store op,
          d.active = true → d ∈ store ∨ d.subscribedAt = now))
    ∧ (∀ (trace : List (Nat × Op)) (t0 : Nat), ClockMono t0 trace →
        ∀ d ∈ runOps sha256hex env trace ([] : Store), recInv d) :=
  ⟨applyOp_stepInv sha256hex env now store op hInv hLe,
   fun trace t0 hmono =>
     runOps_inv sha256hex env trace t0 [] (by intro d hd; cases hd)
       (by intro d hd; cases hd) hmono⟩

/-- Instance of `C8_lifecycle_invariant`: unsubscribing the active demo
subscriber at time 9 yields a record whose `unsubscribedAt` is at or
after its `subscribedAt`. -/
theorem C8_lifecycle_invariant_witness :
    ∃ u, ({ freshDoc demoHash demoEnv 1 "a@x.com" "website" with
              active := false,
              unsubscribedAt := some (9 : Nat) } : SubscriberDoc).unsubscribedAt
            = some u
        ∧ ({ freshDoc demoHash demoEnv 1 "a@x.com" "website" with
              active := false,
              unsubscribedAt := some (9 : Nat) } : SubscriberDoc).subscribedAt
            ≤ u :=
  ((C8_lifecycle_invariant demoHash demoEnv 9 demoStore
      (Op.unsubEmail "a@x.com")
      (by intro d hd; rw [List.mem_singleton.1 hd]; exact fun h => by cases h)
      (by intro d hd; rw [List.mem_singleton.1 hd]; decide)).1.1
    _ (by decide)) rfl


/-! ### C9 : failure propagation at the HTTP boundary -/

/-- C9 as stated is false: a lower-layer failure during the
active-subscriber listing is caught inside the service, which degrades
the result to the empty list, and the route answers 200 with a listing
body (neither a message nor an error field, and not a generic internal
error). -/
theorem C9_counterexample :
    subscribeGET demoStore true = (200, RespBody.listing 0 [])
    ∧ (200 : Nat) ≠ 500 :=
  ⟨rfl, by decide⟩

/-- A response is message-on-200 or error-on-non-200. -/
def WellFormedResp (p : Nat × RespBody × Store) : Prop :=
  (p.1 = 200 ∧ ∃ m, p.2.1 = RespBody.message m)
  ∨ (p.1 ≠ 200 ∧ ∃ e, p.2.1 = RespBody.error e)

theorem wellFormed_subscribePOST (sha256hex : String → String)
    (env : Option String) (now : Nat) (store : Store)
    (emailField : Option String) (wfl : Bool) :
    WellFormedResp (subscribePOST sha256hex env now store emailField wfl) := by
  rw [WellFormedResp, subscribePOST]
  split
  · exact Or.inr ⟨(by decide : (400 : Nat) ≠ 200), ⟨_, rfl⟩⟩
  · split
    · split
      · exact Or.inl ⟨rfl, ⟨_, rfl⟩⟩
      · refine Or.inr ⟨?_, ⟨_, rfl⟩⟩
        split
        · exact (by decide : (409 : Nat) ≠ 200)
        · exact (by decide : (400 : Nat) ≠ 200)

theorem wellFormed_unsubscribePOST (now : Nat) (store : Store)
    (emailField : Option String) (wfl : Bool) :
    WellFormedResp (unsubscribePOST now store emailField wfl) := by
  rw [WellFormedResp, unsubscribePOST]
  split
  · exact Or.inr ⟨(by decide : (400 : Nat) ≠ 200), ⟨_, rfl⟩⟩
  · split
    · split
      · exact Or.inl ⟨rfl, ⟨_, rfl⟩⟩
      · refine Or.inr ⟨?_, ⟨_, rfl⟩⟩
        split
        · exact (by decide : (404 : Nat) ≠ 200)
        · split
          · exact (by decide : (409 : Nat) ≠ 200)
          · exact (by decide : (400 : Nat) ≠ 200)

theorem wellFormed_unsubscribeGET (sha256hex : String → String)
    (env : Option String) (now : Nat) (store : Store)
    (tokenParam emailParam : Option String) (wfl : Bool) :
    WellFormedResp
      (unsubscribeGET sha256hex env now store tokenParam emailParam wfl) := by
  rw [WellFormedResp, unsubscribeGET]
  split
  · exact Or.inr ⟨(by decide : (400 : Nat) ≠ 200), ⟨_, rfl⟩⟩
  · split
    · split
      · exact Or.inl ⟨rfl, ⟨_, rfl⟩⟩
      · refine Or.inr ⟨?_, ⟨_, rfl⟩⟩
        split
        · exact (by decide : (403 : Nat) ≠ 200)
        · split
          · exact (by decide : (404 : Nat) ≠ 200)
          · exact (by decide : (400 : Nat) ≠ 200)

/-- C9 (amended): no lower-layer failure escapes.  On the subscribe and
unsubscribe routes every response is a message with status 200 or an
error with a non-200 status, for every write outcome; a write failure on
a fresh subscribe or on an unsubscribe of an active record surfaces as
status 400 with the generic try-again error (not as a 500 internal
error); and a failure of the listing query is swallowed into an empty
200 listing. -/
theorem C9_failures_caught (sha256hex : String → String)
    (env : Option String) (now : Nat) (store : Store)
    (emailField tokenParam : Option String) (wfl : Bool) :
    WellFormedResp (subscribePOST sha256hex env now store emailField wfl)
    ∧ WellFormedResp (unsubscribePOST now store emailField wfl)
    ∧ WellFormedResp
        (unsubscribeGET sha256hex env now store tokenParam emailField wfl)
    ∧ subscribeGET store true = (200, RespBody.listing 0 [])
    ∧ (strFalsy emailField = false →
        emailRegexTest (emailField.getD "") = true →
        getSubscriberByEmail store (emailField.getD "") = none →
        subscribePOST sha256hex env now store emailField true
          = (400,
             RespBody.error "Failed to subscribe. Please try again.",
             store))
    ∧ (∀ i d, strFalsy emailField = false →
        emailRegexTest (emailField.getD "") = true →
        getSubscriberByEmail store (emailField.getD "") = some (i, d) →
        d.active = true →
        unsubscribePOST now store emailField true
          = (400,
             RespBody.error "Failed to unsubscribe. Please try again.",
             store)) := by
  refine ⟨wellFormed_subscribePOST sha256hex env now store emailField wfl,
    wellFormed_unsubscribePOST now store emailField wfl,
    wellFormed_unsubscribeGET sha256hex env now store tokenParam emailField
      wfl,
    rfl, ?_, ?_⟩
  · intro h1 h2 h3
    have haf : addSubscriberF sha256hex env now store (emailField.getD "")
        "website" true
        = ({ success := false,
             message := "Failed to subscribe. Please try again." },
           store) := by
      rw [addSubscriberF, h3]
      rfl
    rw [subscribePOST, if_neg (by simp [h1, h2]), haf]
    rfl
  · intro i d h1 h2 h3 hd
    have huf : unsubscribeByEmailF now store (emailField.getD "") true
        = ({ success := false,
             message := "Failed to unsubscribe. Please try again." },
           store) := by
      rw [unsubscribeByEmailF, h3]
      simp [hd]
    rw [unsubscribePOST, if_neg (by simp [h1, h2]), huf]
    rfl

/-- Instance of `C9_failures_caught` at concrete inputs: with a failing
write, subscribing a fresh email answers 400 with the generic error. -/
theorem C9_failures_caught_witness :
    subscribePOST demoHash demoEnv 3 [] (some "b@x.com") true
      = (400, RespBody.error "Failed to subscribe. Please try again.", []) :=
  ((C9_failures_caught demoHash demoEnv 3 [] (some "b@x.com") none
      true).2.2.2.2.1) (by decide) (by decide) rfl

/-! ### C10 : reactivation is not a full reset -/

/-- C10: a successful `addSubscriber` on an inactive record updates only
`active`, `subscribed`, `subscribedAt` and `unsubscribeToken`; the old
`unsubscribedAt` and `source` (and `email`) survive, so a reactivated
record can carry an `unsubscribedAt` earlier than its new
`subscribedAt`. -/
theorem C10_reactivation_frame (sha256hex : String → String)
    (env : Option String) (now : Nat) (store : Store)
    (email source : String) (i : Nat) (d : SubscriberDoc)
    (h : getSubscriberByEmail store email = some (i, d))
    (hd : d.active = false) :
    (addSubscriber sha256hex env now store email source).1.success = true
    ∧ (addSubscriber sha256hex env now store email source).2
        = store.set i (reactivatedDoc sha256hex env now email d)
    ∧ (reactivatedDoc sha256hex env now email d).email = d.email
    ∧ (reactivatedDoc sha256hex env now email d).source = d.source
    ∧ (reactivatedDoc sha256hex env now email d).unsubscribedAt
        = d.unsubscribedAt
    ∧ (reactivatedDoc sha256hex env now email d).active = true
    ∧ (reactivatedDoc sha256hex env now email d).subscribed = true
    ∧ (reactivatedDoc sha256hex env now email d).subscribedAt = now
    ∧ (reactivatedDoc sha256hex env now email d).unsubscribeToken
        = generateUnsubscribeToken sha256hex env email := by
  refine ⟨?_, ?_, rfl, rfl, rfl, rfl, rfl, rfl, rfl⟩
  · rw [addSubscriber, h]
    simp [hd]
  · rw [addSubscriber, h]
    simp [hd]

/-- Instance of `C10_reactivation_frame`: reactivating the inactive demo
subscriber at time 7 keeps its `unsubscribedAt = some 2`, which is
earlier than the new `subscribedAt = 7`. -/
theorem C10_reactivation_frame_witness :
    (addSubscriber demoHash demoEnv 7 demoStoreInactive "a@x.com"
        "website").2
      = [reactivatedDoc demoHash demoEnv 7 "a@x.com"
          (demoStoreInactive.get ⟨0, by decide⟩)]
    ∧ (reactivatedDoc demoHash demoEnv 7 "a@x.com"
        (demoStoreInactive.get ⟨0, by decide⟩)).unsubscribedAt = some 2
    ∧ (reactivatedDoc demoHash demoEnv 7 "a@x.com"
        (demoStoreInactive.get ⟨0, by decide⟩)).subscribedAt = 7
    ∧ 2 < 7 :=
  ⟨(C10_reactivation_frame demoHash demoEnv 7 demoStoreInactive "a@x.com"
      "website" 0 (demoStoreInactive.get ⟨0, by decide⟩) (by decide)
      (by decide)).2.1,
   ((C10_reactivation_frame demoHash demoEnv 7 demoStoreInactive "a@x.com"
      "website" 0 (demoStoreInactive.get ⟨0, by decide⟩) (by decide)
      (by decide)).2.2.2.2.1).trans (by decide),
   by decide, by decide⟩

end Quantic
